import Mathlib

/-!
Verification development for the resumable-transfer engine of a URL-based
copy/sync command-line client (Go sources: `session-v4.go`, `sync-url.go`,
`common-methods.go`).

The Go code is shallowly embedded:

* The startup version-mismatch sweep `migrateSessionV3ToV4` is modelled as a
  function on the ordered list of sessions found in the session directory;
  each list entry stands for the pair of on-disk files (header file and
  data-log file) of one session, which the Go code removes together.
* The resume skip predicate `isCopiedFactory` (a Go closure over a mutable
  `copied` flag) is modelled as an explicit state-passing step function; the
  fatal path on an empty URL is modelled as `Option.none`.
* The sync fan-out planner `prepareSyncURLs` writes to a channel that is
  closed after the loop; it is modelled as a function producing the finite
  list of stream entries, in channel order (the end of the list is the
  end-of-stream signal).  The shape classifier and the per-shape expanders
  (`guessCopyURLType`, `prepareCopyURLsTypeA/B/C`) live outside the given
  sources and are kept abstract as parameters.
* The session manager (`sessionV4`, `sessionDataFP`) is modelled as explicit
  state passing over a handle state and a per-session disk state.  The
  `quick` config collaborator (external) is modelled as storing the decoded
  header record itself; OS file semantics (read-only open via `os.Open`,
  write/seek/close on file descriptors) are modelled explicitly.
-/

/-! ## Version-mismatch sweep (`migrateSessionV3ToV4`, session-v4.go:35-56) -/

/-- One session present in the session directory, as seen by the sweep: its
ID and the version string stored in its on-disk header.  An entry stands for
both of the session's files (header file and data-log file); the Go sweep
removes the two together (lines 49-54). -/
structure SessionOnDisk where
  sid : String
  version : String
deriving DecidableEq, Repr

/-- Modelled from the spec: `getSessionFile` (missing from the given
sources) maps a session ID to its header-file path. -/
def getSessionFile (sid : String) : String := sid ++ ".json"

/-- Modelled from the spec: `getSessionDataFile` (missing from the given
sources) maps a session ID to its data-log-file path. -/
def getSessionDataFile (sid : String) : String := sid ++ ".data"

/-- The startup sweep, session-v4.go:35-56, acting on the session directory
in `getSessionIDs` enumeration order and returning the sessions still on
disk afterwards.  Faithful detail: on the first session whose header version
is `"4"` the Go loop executes `return` (not `continue`), leaving that
session and every later one untouched; otherwise it removes the session's
header and data-log files and moves on.  `loadSessionV3` and the file
removals are assumed to succeed (their failures are fatal in the code). -/
def migrateSessionV3ToV4 : List SessionOnDisk → List SessionOnDisk
  | [] => []
  | s :: rest =>
    if s.version = "4" then s :: rest
    else migrateSessionV3ToV4 rest

/-- The on-disk files belonging to the sessions of a directory listing:
header file and data-log file for each session. -/
def sessionFilesOf (l : List SessionOnDisk) : List String :=
  l.flatMap fun s => [getSessionFile s.sid, getSessionDataFile s.sid]

/-! ## Resume skip predicate (`isCopiedFactory`, session-v4.go:318-336) -/

/-- One call of the predicate returned by `isCopiedFactory lastCopied`, with
the closure's mutable `copied` flag passed explicitly.  Returns `none` when
the call is fatal (empty source URL, session-v4.go:321-323), otherwise
`some (result, newCopiedFlag)`. -/
def isCopiedCall (lastCopied : String) (copied : Bool) (sourceURL : String) :
    Option (Bool × Bool) :=
  if sourceURL = "" then none
  else if lastCopied = "" then some (false, copied)
  else if copied then
    if lastCopied = sourceURL then some (true, false)
    else some (true, true)
  else some (false, copied)

/-- Replaying a sequence of calls against the predicate, threading the
closure state; `none` if any call is fatal. -/
def isCopiedRun (lastCopied : String) (copied : Bool) : List String → Option (List Bool)
  | [] => some []
  | u :: us =>
    match isCopiedCall lastCopied copied u with
    | none => none
    | some (r, c) =>
      match isCopiedRun lastCopied c us with
      | none => none
      | some rs => some (r :: rs)

/-- The results of replaying `urls` against a freshly constructed predicate
(`isCopiedFactory` initialises `copied := true`, session-v4.go:319). -/
def isCopiedFactoryRun (lastCopied : String) (urls : List String) : Option (List Bool) :=
  isCopiedRun lastCopied true urls

/-- Follows the spec's words (refinement reference, §4.2): with an empty
marker every call answers `false`; with a non-empty marker every call
answers `true` up to and including the first call whose input equals the
marker, and `false` afterwards (all `true` when the marker never occurs). -/
def specSkipResults (lastCopied : String) : List String → List Bool
  | [] => []
  | u :: us =>
    if lastCopied = "" then false :: specSkipResults lastCopied us
    else if u = lastCopied then true :: List.replicate us.length false
    else true :: specSkipResults lastCopied us

example : isCopiedFactoryRun "b" ["a", "b", "c", "d"] =
    some [true, true, false, false] := by decide

example : migrateSessionV3ToV4 [⟨"s1", "4"⟩, ⟨"s2", "3"⟩] =
    [⟨"s1", "4"⟩, ⟨"s2", "3"⟩] := by decide

/-! ## Sync fan-out planner (`prepareSyncURLs`, sync-url.go:46-69) -/

/-- Modelled from the spec: the shape tags of the external classifier
(`guessCopyURLType` is not among the given sources); the five canonical
shapes of §4.3 plus the reject tag. -/
inductive CopyURLsType where
  | typeA
  | typeB
  | typeC
  | typeD
  | typeE
  | typeInvalid
deriving DecidableEq, Repr

/-- Modelled from the spec: the Copy Job / stream entry `cpURLs` (its Go
struct is not among the given sources): `{sourceURL, targetURL, size,
error?}`, where a `some` error marks a rejected shape rather than a job. -/
structure CpURLs where
  sourceURL : String
  targetURL : String
  size : Int
  jobError : Option Unit
deriving DecidableEq, Repr

/-- The external collaborators used by `prepareSyncURLs`: the shape
classifier and the per-shape expanders (all outside the given sources; the
shape-C expander's channel is modelled as the finite list it yields, in
order). -/
structure SyncEnv where
  guessCopyURLType : List String → String → CopyURLsType
  prepareCopyURLsTypeA : String → String → CpURLs
  prepareCopyURLsTypeB : String → String → CpURLs
  prepareCopyURLsTypeC : String → String → List CpURLs

/-- The stream entry appended for an unhandled shape
(sync-url.go:64): a zero job carrying the `errInvalidArgument` error. -/
def syncInvalidEntry : CpURLs := ⟨"", "", 0, some ()⟩

/-- The planner `prepareSyncURLs` (sync-url.go:46-69): for each target in
list order it classifies `([sourceURL], targetURL)` and appends one job
(shape A, B), the drained shape-C sub-stream in its own order, or the
single error entry (any other shape).  The Go producer goroutine closes the
channel after the loop (`defer close`, line 50); here the stream is the
returned finite list and its end is the end-of-stream signal. -/
def prepareSyncURLs (env : SyncEnv) (sourceURL : String) :
    List String → List CpURLs
  | [] => []
  | targetURL :: rest =>
    (match env.guessCopyURLType [sourceURL] targetURL with
      | .typeA => [env.prepareCopyURLsTypeA sourceURL targetURL]
      | .typeB => [env.prepareCopyURLsTypeB sourceURL targetURL]
      | .typeC => env.prepareCopyURLsTypeC sourceURL targetURL
      | _ => [syncInvalidEntry]) ++ prepareSyncURLs env sourceURL rest

/-- A concrete classifier environment used to exercise the planner: target
`"bad1"` is rejected, `"cdir"` classifies as shape C with a two-job
sub-stream, `"edir"` classifies as shape E, anything else as shape B. -/
def exSyncEnv : SyncEnv where
  guessCopyURLType := fun _ target =>
    if target = "bad1" then .typeInvalid
    else if target = "cdir" then .typeC
    else if target = "edir" then .typeE
    else .typeB
  prepareCopyURLsTypeA := fun s t => ⟨s, t, 1, none⟩
  prepareCopyURLsTypeB := fun s t => ⟨s, t ++ "/" ++ s, 1, none⟩
  prepareCopyURLsTypeC := fun s t =>
    [⟨s, t ++ "/x/" ++ s, 1, none⟩, ⟨s, t ++ "/y/" ++ s, 1, none⟩]

example : prepareSyncURLs exSyncEnv "f" ["bad1", "d2"] =
    [syncInvalidEntry, ⟨"f", "d2/f", 1, none⟩] := by decide

example : prepareSyncURLs exSyncEnv "f" ["edir"] = [syncInvalidEntry] := by decide

/-! ## Session manager (`sessionV4`, session-v4.go:76-313)

The in-process handle (`sessionV4` with its `sessionDataFP`) and the
session's two on-disk files are modelled as explicit state.  The `quick`
config collaborator (external package) is modelled as storing the decoded
header record itself, so the header file holds an `Option sessionV4Header`.
The data-log file descriptor carries the OS-level pieces the code relies
on: open/closed, access mode (`os.Open` yields read-only, `os.Create`
read/write) and the single file offset shared by reads and writes.  The
session mutex serialises the operations; since each operation is modelled
as one atomic state transformer, the lock itself has no residue here. -/

/-- `cmdBoolFlag` (session-v4.go:59-62). -/
structure cmdBoolFlag where
  Key : String
  Value : Bool
deriving DecidableEq, Repr

/-- `cmdIntFlag` (session-v4.go:65-68). -/
structure cmdIntFlag where
  Key : String
  Value : Int
deriving DecidableEq, Repr

/-- `cmdStringFlag` (session-v4.go:71-74). -/
structure cmdStringFlag where
  Key : String
  Value : String
deriving DecidableEq, Repr

/-- `sessionV4Header` (session-v4.go:77-89); `When` is modelled as a
numeric timestamp. -/
structure sessionV4Header where
  Version : String
  When : Nat
  RootPath : String
  CommandType : String
  CommandArgs : List String
  CommandBoolFlag : List cmdBoolFlag
  CommandIntFlag : List cmdIntFlag
  CommandStringFlag : List cmdStringFlag
  LastCopied : String
  TotalBytes : Int
  TotalObjects : Int
deriving DecidableEq, Repr

/-- Access mode of an open file descriptor: `os.Open` opens read-only,
`os.Create` read/write. -/
inductive AccessMode where
  | readOnly
  | readWrite
deriving DecidableEq, Repr

/-- `sessionDataFP` (session-v4.go:110-113): the data-log file descriptor
with its dirty flag, plus the OS-level descriptor state it wraps. -/
structure sessionDataFP where
  dirty : Bool
  closed : Bool
  mode : AccessMode
  offset : Nat
deriving DecidableEq, Repr

/-- `sessionV4` (session-v4.go:101-107): header, ID and data file pointer
(the mutex is represented by the atomicity of each operation). -/
structure sessionV4 where
  Header : sessionV4Header
  SessionID : String
  DataFP : sessionDataFP
deriving DecidableEq, Repr

/-- The two on-disk files of one session ID: header file (holding the
quick-serialised header record when present) and data-log file (holding raw
bytes when present), under the session directory. -/
structure SessionDisk where
  dirExists : Bool
  headerFile : Option sessionV4Header
  dataFile : Option (List Nat)
deriving DecidableEq, Repr

/-- Error classes surfaced by session operations (§7 taxonomy);
`fatalError` stands for the process-terminating `fatalIf` path. -/
inductive sessionError where
  | ioError
  | invalidArgument
  | notFound
  | fatalError
deriving DecidableEq, Repr

/-- Writing `p` into file content `c` at byte offset `off` (POSIX `write`
semantics: zero-fill when the offset is past the end, overwrite in place,
extend at the end). -/
def writeAt (c : List Nat) (off : Nat) (p : List Nat) : List Nat :=
  c.take off ++ List.replicate (off - c.length) 0 ++ p ++ c.drop (off + p.length)

/-- `sessionDataFP.Write` (session-v4.go:115-118): sets the dirty flag
first, then performs the OS write — so the flag is set even when the
underlying write fails (closed descriptor, read-only descriptor, missing
file).  Returns the updated descriptor and either the updated disk or an
I/O error. -/
def sessionDataFP.WriteData (fp : sessionDataFP) (d : SessionDisk) (p : List Nat) :
    sessionDataFP × Except sessionError SessionDisk :=
  let fp1 : sessionDataFP := { fp with dirty := true }
  if fp1.closed then (fp1, .error .ioError)
  else if fp1.mode = .readOnly then (fp1, .error .ioError)
  else
    match d.dataFile with
    | none => (fp1, .error .ioError)
    | some c =>
      ({ fp1 with offset := fp1.offset + p.length },
        .ok { d with dataFile := some (writeAt c fp1.offset p) })

/-- Reading up to `n` bytes through the data-log descriptor at its current
offset, advancing the shared offset by the number of bytes read. -/
def sessionDataFP.ReadData (fp : sessionDataFP) (d : SessionDisk) (n : Nat) :
    Except sessionError (List Nat × sessionDataFP) :=
  if fp.closed then .error .ioError
  else
    match d.dataFile with
    | none => .error .ioError
    | some c =>
      let bs := (c.drop fp.offset).take n
      .ok (bs, { fp with offset := fp.offset + bs.length })

/-- `s.DataFP.Seek(0, os.SEEK_SET)` as used by `NewDataReader` /
`NewDataWriter` (session-v4.go:178,185): repositions the descriptor's
offset to 0; the returned error is ignored by the callers, so on a closed
descriptor the state is simply unchanged. -/
def sessionDataFP.SeekStart (fp : sessionDataFP) : sessionDataFP :=
  if fp.closed then fp else { fp with offset := 0 }

/-- `sessionV4.NewDataReader` (session-v4.go:176-180): seeks the shared
data-log offset to 0 and hands back the (same) descriptor as the reader. -/
def sessionV4.NewDataReader (s : sessionV4) : sessionV4 :=
  { s with DataFP := s.DataFP.SeekStart }

/-- `sessionV4.NewDataWriter` (session-v4.go:183-187): seeks the shared
data-log offset to 0 and hands back the (same) descriptor as the writer. -/
def sessionV4.NewDataWriter (s : sessionV4) : sessionV4 :=
  { s with DataFP := s.DataFP.SeekStart }

/-- `sessionV4.Save` (session-v4.go:190-211): under the lock, if the dirty
flag is set, `Sync` the data log (fails on a closed descriptor) and clear
the flag; then marshal the header via `quick` and write it to the header
file.  The returned `Bool` records whether the flush was performed. -/
def sessionV4.Save (s : sessionV4) (d : SessionDisk) :
    Except sessionError (sessionV4 × SessionDisk × Bool) :=
  if s.DataFP.dirty then
    if s.DataFP.closed then .error .ioError
    else
      let s1 : sessionV4 := { s with DataFP := { s.DataFP with dirty := false } }
      .ok (s1, { d with headerFile := some s1.Header }, true)
  else
    .ok (s, { d with headerFile := some s.Header }, false)

/-- `sessionV4.Close` (session-v4.go:214-232): under the lock, close the
data-log descriptor (an already-closed descriptor is an I/O error), then
persist the header exactly as `Save` does.  No file is removed. -/
def sessionV4.Close (s : sessionV4) (d : SessionDisk) :
    Except sessionError (sessionV4 × SessionDisk) :=
  if s.DataFP.closed then .error .ioError
  else
    let s1 : sessionV4 := { s with DataFP := { s.DataFP with closed := true } }
    .ok (s1, { d with headerFile := some s1.Header })

/-- `newSessionV4` (session-v4.go:144-165) for a given fresh ID and
creation time: header initialised with version `"4"` and the default
flag singletons, data-log file created empty (`os.Create`: read/write
descriptor, truncated file, offset 0, clean flag). -/
def newSessionV4 (sid : String) (now : Nat) (d : SessionDisk) :
    sessionV4 × SessionDisk :=
  let hdr : sessionV4Header :=
    { Version := "4", When := now, RootPath := "", CommandType := "",
      CommandArgs := [], CommandBoolFlag := [⟨"", false⟩],
      CommandIntFlag := [⟨"", 0⟩], CommandStringFlag := [⟨"", ""⟩],
      LastCopied := "", TotalBytes := 0, TotalObjects := 0 }
  ({ Header := hdr, SessionID := sid,
     DataFP := { dirty := false, closed := false, mode := .readWrite, offset := 0 } },
   { d with dataFile := some [] })

/-- `loadSessionV4` (session-v4.go:272-313): requires the session directory
(else `InvalidArgument`); `os.Stat` on a missing header file fails (here
`notFound`); the header record is decoded by `quick`; the data-log file is
then opened with `os.Open` — read-only — and an open failure is `fatalIf`
(here `fatalError`).  The loaded descriptor starts clean at offset 0. -/
def loadSessionV4 (d : SessionDisk) (sid : String) :
    Except sessionError sessionV4 :=
  if !d.dirExists then .error .invalidArgument
  else
    match d.headerFile with
    | none => .error .notFound
    | some hdr =>
      match d.dataFile with
      | none => .error .fatalError
      | some _ =>
        .ok { Header := hdr, SessionID := sid,
              DataFP := { dirty := false, closed := false,
                          mode := .readOnly, offset := 0 } }

/-- `sessionV4.HasData` (session-v4.go:168-173). -/
def sessionV4.HasData (s : sessionV4) : Bool :=
  if s.Header.LastCopied = "" then false else true

/-- A concrete header record used in witnesses and counterexamples. -/
def exHeader : sessionV4Header :=
  { Version := "4", When := 7, RootPath := "/w", CommandType := "sync",
    CommandArgs := ["a", "b"], CommandBoolFlag := [⟨"", false⟩],
    CommandIntFlag := [⟨"", 0⟩], CommandStringFlag := [⟨"", ""⟩],
    LastCopied := "u", TotalBytes := 3, TotalObjects := 1 }

/-- A concrete on-disk state: session directory present, header file
holding `exHeader`, data-log file holding two bytes. -/
def exDisk : SessionDisk :=
  { dirExists := true, headerFile := some exHeader, dataFile := some [9, 8] }

example : (loadSessionV4 exDisk "x").toOption.map (fun s => s.DataFP.mode) =
    some .readOnly := by decide

/-! ## Theorems -/

/-- C1 counterexample: with the directory listing `[s1 (version 4),
s2 (version 3)]`, the sweep hits the current-version session `s1` first and
`return`s, so the stale session `s2` keeps both its header file and its
data-log file — the claim says every session whose version differs from
`"4"` has both files removed. -/
theorem migrateSessionV3ToV4_spares_stale_after_current :
    migrateSessionV3ToV4 [⟨"s1", "4"⟩, ⟨"s2", "3"⟩] =
      [⟨"s1", "4"⟩, ⟨"s2", "3"⟩] ∧
    (⟨"s2", "3"⟩ : SessionOnDisk).version ≠ "4" ∧
    getSessionFile "s2" ∈
      sessionFilesOf (migrateSessionV3ToV4 [⟨"s1", "4"⟩, ⟨"s2", "3"⟩]) ∧
    getSessionDataFile "s2" ∈
      sessionFilesOf (migrateSessionV3ToV4 [⟨"s1", "4"⟩, ⟨"s2", "3"⟩]) := by
  refine ⟨rfl, by decide, ?_, ?_⟩ <;> decide

/-- C1 (amended): the sweep walks the session directory in enumeration
order removing both files of each stale session it meets, but stops
entirely at the first session whose header version is already `"4"`; that
session and everything after it (stale or not) are left untouched.  The
surviving directory is exactly `dropWhile (version ≠ "4")`. -/
theorem migrateSessionV3ToV4_eq_dropWhile (l : List SessionOnDisk) :
    migrateSessionV3ToV4 l = l.dropWhile (fun s => s.version != "4") := by
  induction l with
  | nil => rfl
  | cons s rest ih =>
    by_cases h : s.version = "4"
    · simp [migrateSessionV3ToV4, List.dropWhile_cons, h]
    · simp [migrateSessionV3ToV4, List.dropWhile_cons, h, bne_iff_ne, ih]

/-- With an empty marker, every (non-fatal) call answers `false`,
whatever the closure state. -/
theorem isCopiedRun_empty_marker (c : Bool) (us : List String)
    (h : ∀ u ∈ us, u ≠ "") :
    isCopiedRun "" c us = some (List.replicate us.length false) := by
  induction us with
  | nil => rfl
  | cons u us ih =>
    have hu : u ≠ "" := h u (by simp)
    simp [isCopiedRun, isCopiedCall, hu, List.replicate_succ,
      ih (fun v hv => h v (by simp [hv]))]

/-- Once the closure flag has flipped to `false`, every later call
answers `false`. -/
theorem isCopiedRun_active (lc : String) (us : List String)
    (h0 : lc ≠ "") (h : ∀ u ∈ us, u ≠ "") :
    isCopiedRun lc false us = some (List.replicate us.length false) := by
  induction us with
  | nil => rfl
  | cons u us ih =>
    have hu : u ≠ "" := h u (by simp)
    simp [isCopiedRun, isCopiedCall, hu, h0, List.replicate_succ,
      ih (fun v hv => h v (by simp [hv]))]

/-- From the initial (skipping) state with a non-empty marker, a replay
produces exactly the results described by the spec. -/
theorem isCopiedRun_skipping (lc : String) (us : List String)
    (h0 : lc ≠ "") (h : ∀ u ∈ us, u ≠ "") :
    isCopiedRun lc true us = some (specSkipResults lc us) := by
  induction us with
  | nil => rfl
  | cons u us ih =>
    have hu : u ≠ "" := h u (by simp)
    have hrest : ∀ v ∈ us, v ≠ "" := fun v hv => h v (by simp [hv])
    by_cases he : lc = u
    · subst he
      simp [isCopiedRun, isCopiedCall, hu, h0,
        isCopiedRun_active lc us h0 hrest, specSkipResults]
    · have hne : ¬u = lc := fun hl => he hl.symm
      simp [isCopiedRun, isCopiedCall, hu, h0, he, hne,
        specSkipResults, ih hrest]

/-- The spec reference function answers all-`false` on an empty marker. -/
theorem specSkipResults_empty_marker (us : List String) :
    specSkipResults "" us = List.replicate us.length false := by
  induction us with
  | nil => rfl
  | cons u us ih => simp [specSkipResults, List.replicate_succ, ih]

/-- C2: replaying any sequence of non-empty URLs against a fresh predicate
yields exactly the spec's results — all `false` when `lastCopied` is empty;
otherwise `true` up to and including the first input equal to `lastCopied`
and `false` afterwards — and on the concrete replay `lastCopied = "b"`,
inputs `["a","b","c","d"]`, the results are `[true, true, false, false]`. -/
theorem isCopiedFactory_matches_spec (lc : String) (us : List String)
    (h : ∀ u ∈ us, u ≠ "") :
    isCopiedFactoryRun lc us = some (specSkipResults lc us) ∧
    isCopiedFactoryRun "b" ["a", "b", "c", "d"] =
      some [true, true, false, false] := by
  constructor
  · by_cases h0 : lc = ""
    · subst h0
      rw [isCopiedFactoryRun, isCopiedRun_empty_marker true us h,
        specSkipResults_empty_marker]
    · exact isCopiedRun_skipping lc us h0 h
  · decide

/-- C2 witness: the theorem applied to the concrete replay of the claim. -/
theorem isCopiedFactory_matches_spec_witness :
    isCopiedFactoryRun "b" ["a", "b", "c", "d"] =
      some (specSkipResults "b" ["a", "b", "c", "d"]) :=
  (isCopiedFactory_matches_spec "b" ["a", "b", "c", "d"] (by decide)).1

/-- From the skipping state, a replay that never presents the marker leaves
the closure flag `true` and answers `true` throughout. -/
theorem isCopiedRun_no_match (lc : String) (us : List String)
    (h0 : lc ≠ "") (h : ∀ u ∈ us, u ≠ "") (hn : lc ∉ us) :
    isCopiedRun lc true us = some (List.replicate us.length true) := by
  induction us with
  | nil => rfl
  | cons u us ih =>
    have hu : u ≠ "" := h u (by simp)
    have hne : lc ≠ u := fun hl => hn (by simp [hl])
    have hrest : ∀ v ∈ us, v ≠ "" := fun v hv => h v (by simp [hv])
    have hnrest : lc ∉ us := fun hm => hn (by simp [hm])
    simp [isCopiedRun, isCopiedCall, hu, h0, hne, List.replicate_succ,
      ih hrest hnrest]

/-- C3: with a non-empty marker that never occurs among the (non-empty)
replayed URLs, the predicate never leaves the skipping state: every call
returns `true`. -/
theorem isCopiedFactory_stuck_skipping (lc : String) (us : List String)
    (h0 : lc ≠ "") (h : ∀ u ∈ us, u ≠ "") (hn : lc ∉ us) :
    isCopiedFactoryRun lc us = some (List.replicate us.length true) :=
  isCopiedRun_no_match lc us h0 h hn

/-- C3 witness: the documented hazard on `lastCopied = "z"`,
replay `["a","b"]`. -/
theorem isCopiedFactory_stuck_skipping_witness :
    isCopiedFactoryRun "z" ["a", "b"] = some [true, true] := by
  simpa using isCopiedFactory_stuck_skipping "z" ["a", "b"]
    (by decide) (by decide) (by decide)

/-- The planner processes a concatenation of target lists as the
concatenation of the two streams (the loop handles targets independently,
in order). -/
theorem prepareSyncURLs_append (env : SyncEnv) (s : String) (l1 l2 : List String) :
    prepareSyncURLs env s (l1 ++ l2) =
      prepareSyncURLs env s l1 ++ prepareSyncURLs env s l2 := by
  induction l1 with
  | nil => rfl
  | cons t l1 ih => simp [prepareSyncURLs, ih]

/-- A target whose classified shape is none of A, B, C contributes the
single `InvalidArgument` entry (the `default` arm, sync-url.go:63-64). -/
theorem prepareSyncURLs_unhandled_shape (env : SyncEnv) (s t : String)
    (h1 : env.guessCopyURLType [s] t ≠ .typeA)
    (h2 : env.guessCopyURLType [s] t ≠ .typeB)
    (h3 : env.guessCopyURLType [s] t ≠ .typeC) :
    prepareSyncURLs env s [t] = [syncInvalidEntry] := by
  cases hg : env.guessCopyURLType [s] t with
  | typeA => exact absurd hg h1
  | typeB => exact absurd hg h2
  | typeC => exact absurd hg h3
  | typeD => simp [prepareSyncURLs, hg]
  | typeE => simp [prepareSyncURLs, hg]
  | typeInvalid => simp [prepareSyncURLs, hg]

/-- C4: when some target's `(source, target)` pair classifies as an
unhandled shape, the stream carries exactly one error-tagged
(`InvalidArgument`) entry in that target's position, every remaining target
is still processed, and the stream is the finite list ending after the last
target — the modelled form of the `defer close` end-of-stream signal. -/
theorem prepareSyncURLs_error_isolated (env : SyncEnv) (s t : String)
    (pre post : List String)
    (h1 : env.guessCopyURLType [s] t ≠ .typeA)
    (h2 : env.guessCopyURLType [s] t ≠ .typeB)
    (h3 : env.guessCopyURLType [s] t ≠ .typeC) :
    prepareSyncURLs env s (pre ++ t :: post) =
      prepareSyncURLs env s pre ++
        syncInvalidEntry :: prepareSyncURLs env s post ∧
    syncInvalidEntry.jobError = some () := by
  constructor
  · have hsplit : pre ++ t :: post = (pre ++ [t]) ++ post := by simp
    rw [hsplit, prepareSyncURLs_append, prepareSyncURLs_append,
      prepareSyncURLs_unhandled_shape env s t h1 h2 h3]
    simp
  · rfl

/-- C4 witness: the spec's replay `["bad1","d2"]` — one error entry for
`"bad1"`, then the valid `"d2"` job, then end of stream. -/
theorem prepareSyncURLs_error_isolated_witness :
    prepareSyncURLs exSyncEnv "f" ([] ++ "bad1" :: ["d2"]) =
      prepareSyncURLs exSyncEnv "f" [] ++
        syncInvalidEntry :: prepareSyncURLs exSyncEnv "f" ["d2"] :=
  (prepareSyncURLs_error_isolated exSyncEnv "f" "bad1" [] ["d2"]
    (by decide) (by decide) (by decide)).1

/-- C5: the stream is in exact target-list order — it splits as the
concatenation of per-target blocks; a shape-A or shape-B target contributes
exactly its one job before the rest, a shape-C target contributes its whole
sub-stream, in the sub-stream's own order, before the rest; concretely, two
shape-B targets `["d1","d2"]` yield exactly their two jobs in target
order. -/
theorem prepareSyncURLs_ordering (env : SyncEnv) (s : String) :
    (∀ l1 l2, prepareSyncURLs env s (l1 ++ l2) =
        prepareSyncURLs env s l1 ++ prepareSyncURLs env s l2) ∧
    (∀ t rest, env.guessCopyURLType [s] t = .typeA →
        prepareSyncURLs env s (t :: rest) =
          env.prepareCopyURLsTypeA s t :: prepareSyncURLs env s rest) ∧
    (∀ t rest, env.guessCopyURLType [s] t = .typeB →
        prepareSyncURLs env s (t :: rest) =
          env.prepareCopyURLsTypeB s t :: prepareSyncURLs env s rest) ∧
    (∀ t rest, env.guessCopyURLType [s] t = .typeC →
        prepareSyncURLs env s (t :: rest) =
          env.prepareCopyURLsTypeC s t ++ prepareSyncURLs env s rest) ∧
    prepareSyncURLs exSyncEnv "f" ["d1", "d2"] =
      [⟨"f", "d1/f", 1, none⟩, ⟨"f", "d2/f", 1, none⟩] := by
  refine ⟨prepareSyncURLs_append env s, ?_, ?_, ?_, by decide⟩ <;>
    · intro t rest hg
      simp [prepareSyncURLs, hg]

/-- C5 witness: a shape-C target's sub-stream is forwarded whole, in its
own order, before the next target's block. -/
theorem prepareSyncURLs_ordering_witness :
    prepareSyncURLs exSyncEnv "f" ("cdir" :: ["d2"]) =
      exSyncEnv.prepareCopyURLsTypeC "f" "cdir" ++
        prepareSyncURLs exSyncEnv "f" ["d2"] :=
  (prepareSyncURLs_ordering exSyncEnv "f").2.2.2.1 "cdir" ["d2"] (by decide)

/-- C6: evaluating the planner at a target classified as shape E — contrary
to the valid-shape table in the code's own header comment
(sync-url.go:30, `E: sync(d1..., []d2) -> [][]copy ...`), the switch
handles only shapes A, B, C, so a shape-E target falls to the `default` arm
and yields the single `InvalidArgument` error entry instead of the shape-D
cross-product jobs. -/
theorem prepareSyncURLs_typeE_rejected :
    exSyncEnv.guessCopyURLType ["d1"] "edir" = .typeE ∧
    prepareSyncURLs exSyncEnv "d1" ["edir"] = [syncInvalidEntry] ∧
    syncInvalidEntry.jobError = some () := by
  refine ⟨by decide, by decide, rfl⟩

/-- An in-process session handle used in witnesses: open read/write
data-log descriptor, dirty, offset 2. -/
def exSession : sessionV4 :=
  { Header := exHeader, SessionID := "x",
    DataFP := { dirty := true, closed := false, mode := .readWrite, offset := 2 } }

/-- C7 counterexample: on the concrete disk `exDisk` (directory present,
header parses, data-log file present) the load succeeds, yet the returned
data-log handle is read-only (`os.Open`, session-v4.go:307) and a write
through it fails — the claim says the data-log file is opened read/write so
that subsequent writes are possible. -/
theorem loadSessionV4_readonly_counterexample :
    (loadSessionV4 exDisk "x").toOption.map (fun s => s.DataFP.mode) =
      some .readOnly ∧
    AccessMode.readOnly ≠ AccessMode.readWrite ∧
    (loadSessionV4 exDisk "x").toOption.map
      (fun s => ((s.DataFP.WriteData exDisk [1]).2).toOption.isSome) =
      some false := by
  refine ⟨by decide, by decide, by decide⟩

/-- C7 (amended): when the session directory exists and the header file
parses, `load` succeeds and opens the data-log file read-only, handing back
a clean descriptor at offset 0: reads through the handle are possible,
writes through it fail with an I/O error; and when the data-log file cannot
be opened, the failure is fatal. -/
theorem loadSessionV4_opens_readonly (d : SessionDisk) (sid : String)
    (hdr : sessionV4Header)
    (hd : d.dirExists = true) (hh : d.headerFile = some hdr) :
    (∀ c, d.dataFile = some c →
      loadSessionV4 d sid =
        .ok ⟨hdr, sid, ⟨false, false, .readOnly, 0⟩⟩) ∧
    (d.dataFile = none → loadSessionV4 d sid = .error .fatalError) ∧
    (∀ c n, d.dataFile = some c →
      sessionDataFP.ReadData ⟨false, false, .readOnly, 0⟩ d n =
        .ok (c.take n, ⟨false, false, .readOnly, (c.take n).length⟩)) ∧
    (∀ d2 p,
      (sessionDataFP.WriteData ⟨false, false, .readOnly, 0⟩ d2 p).2 =
        .error .ioError) := by
  refine ⟨?_, ?_, ?_, ?_⟩
  · intro c hc
    simp [loadSessionV4, hd, hh, hc]
  · intro hc
    simp [loadSessionV4, hd, hh, hc]
  · intro c n hc
    simp [sessionDataFP.ReadData, hc]
  · intro d2 p
    cases hdf : d2.dataFile <;> simp [sessionDataFP.WriteData, hdf]

/-- C7 witness: the amended theorem applied to the concrete disk state. -/
theorem loadSessionV4_opens_readonly_witness :
    loadSessionV4 exDisk "x" =
      .ok ⟨exHeader, "x", ⟨false, false, .readOnly, 0⟩⟩ :=
  (loadSessionV4_opens_readonly exDisk "x" exHeader rfl rfl).1 [9, 8] rfl

/-- C8: every write through the data-log handle sets the dirty flag
(before the underlying write even runs); `Save` flushes exactly when the
flag is set and clears it, so of two consecutive `Save`s with no
intervening writes the second observes a clean flag, skips the flush
(`flushed = false`) and writes the identical header record to the header
file, leaving handle and disk exactly as the first save did. -/
theorem sessionV4_save_idempotent (s : sessionV4) (d : SessionDisk)
    (hc : s.DataFP.closed = false) :
    (∀ (fp : sessionDataFP) (d2 : SessionDisk) (p : List Nat),
      ((fp.WriteData d2 p).1).dirty = true) ∧
    ∃ s1 d1 f1, s.Save d = .ok (s1, d1, f1) ∧
      s1.DataFP.dirty = false ∧
      d1.headerFile = some s.Header ∧
      s1.Save d1 = .ok (s1, d1, false) := by
  constructor
  · intro fp d2 p
    obtain ⟨fd, fc, fm, fo⟩ := fp
    cases fc <;> cases fm <;> cases hdf : d2.dataFile <;>
      simp [sessionDataFP.WriteData, hdf]
  · obtain ⟨hdr0, sid0, dirty0, closed0, mode0, off0⟩ := s
    obtain ⟨de0, hf0, df0⟩ := d
    simp only at hc
    subst hc
    cases dirty0 with
    | true =>
      exact ⟨⟨hdr0, sid0, false, false, mode0, off0⟩, ⟨de0, some hdr0, df0⟩,
        true, rfl, rfl, rfl, rfl⟩
    | false =>
      exact ⟨⟨hdr0, sid0, false, false, mode0, off0⟩, ⟨de0, some hdr0, df0⟩,
        false, rfl, rfl, rfl, rfl⟩

/-- C8 witness: the theorem applied to a concrete open session. -/
theorem sessionV4_save_idempotent_witness :
    ((sessionDataFP.WriteData ⟨false, false, .readWrite, 0⟩ exDisk [5]).1).dirty =
      true :=
  (sessionV4_save_idempotent exSession exDisk rfl).1
    ⟨false, false, .readWrite, 0⟩ exDisk [5]

/-- C9: `Close` closes the descriptor and persists the header but removes
no file — data-log file, header-file presence and the session directory are
all intact afterwards, so a subsequent `load` of the same ID succeeds and
returns exactly the header at close time; and a second `Close` on the
already-closed handle fails with an I/O-class error. -/
theorem sessionV4_close_keeps_files (s : sessionV4) (d : SessionDisk)
    (hc : s.DataFP.closed = false) (hd : d.dirExists = true)
    (c : List Nat) (hdf : d.dataFile = some c) :
    s.Close d = .ok ({ s with DataFP := { s.DataFP with closed := true } },
      { d with headerFile := some s.Header }) ∧
    ({ d with headerFile := some s.Header } : SessionDisk).dataFile =
      d.dataFile ∧
    ({ d with headerFile := some s.Header } : SessionDisk).dirExists =
      d.dirExists ∧
    loadSessionV4 { d with headerFile := some s.Header } s.SessionID =
      .ok ⟨s.Header, s.SessionID, ⟨false, false, .readOnly, 0⟩⟩ ∧
    sessionV4.Close { s with DataFP := { s.DataFP with closed := true } }
      { d with headerFile := some s.Header } = .error .ioError := by
  obtain ⟨hdr0, sid0, dirty0, closed0, mode0, off0⟩ := s
  obtain ⟨de0, hf0, df0⟩ := d
  simp only at hc hd hdf
  subst hc
  subst hd
  subst hdf
  exact ⟨rfl, rfl, rfl, rfl, rfl⟩

/-- C9 witness: close-then-load on a concrete open session reproduces the
header held at close time. -/
theorem sessionV4_close_keeps_files_witness :
    loadSessionV4 { exDisk with headerFile := some exSession.Header }
      exSession.SessionID =
      .ok ⟨exSession.Header, exSession.SessionID,
        ⟨false, false, .readOnly, 0⟩⟩ :=
  (sessionV4_close_keeps_files exSession exDisk rfl rfl [9, 8] rfl).2.2.2.1

/-- C10: `NewDataReader` and `NewDataWriter` both begin by seeking the
data-log descriptor to offset 0 (session-v4.go:178,185); the two calls
yield the very same session state — reader and writer wrap the one shared
descriptor and its single offset — and a write through a freshly obtained
writer lands at the start of the file, overwriting existing bytes in place
rather than appending after them. -/
theorem sessionV4_newDataHandles_rewind (s : sessionV4) (d : SessionDisk)
    (c p : List Nat)
    (hc : s.DataFP.closed = false) (hm : s.DataFP.mode = .readWrite)
    (hdf : d.dataFile = some c) :
    (s.NewDataReader).DataFP.offset = 0 ∧
    (s.NewDataWriter).DataFP.offset = 0 ∧
    s.NewDataReader = s.NewDataWriter ∧
    ((s.NewDataWriter).DataFP.WriteData d p).2 =
      .ok { d with dataFile := some (p ++ c.drop p.length) } := by
  obtain ⟨hdr0, sid0, dirty0, closed0, mode0, off0⟩ := s
  obtain ⟨de0, hf0, df0⟩ := d
  simp only at hc hm hdf
  subst hc
  subst hm
  subst hdf
  refine ⟨rfl, rfl, rfl, ?_⟩
  simp [sessionV4.NewDataWriter, sessionDataFP.SeekStart,
    sessionDataFP.WriteData, writeAt]

/-- C10 witness: writing `[5]` through a fresh writer on data-log content
`[9, 8]` yields `[5, 8]` — an overwrite at the start, not an append. -/
theorem sessionV4_newDataHandles_rewind_witness :
    ((exSession.NewDataWriter).DataFP.WriteData exDisk [5]).2 =
      .ok { exDisk with dataFile := some [5, 8] } :=
  (sessionV4_newDataHandles_rewind exSession exDisk [9, 8] [5]
    rfl rfl rfl).2.2.2
